import Mathlib

/-!
Shallow embedding of the ray-tracing program in `src/main.cpp` over the real
numbers, together with theorems settling the specification's claims about
its intersection, refraction, shading and tone-mapping routines.
-/

/-- Modelled from the spec: the vector arithmetic header (`geometry.h`) is not
under `src/`; the spec treats it as a pre-existing leaf library with standard
operations (add, subtract, scale, dot product, normalize, magnitude,
component access).  A 3-vector of real components. -/
structure Vec3 where
  x : ℝ
  y : ℝ
  z : ℝ

/-- Modelled from the spec: a 4-tuple of floats (the albedo weights). -/
structure Vec4 where
  a0 : ℝ
  a1 : ℝ
  a2 : ℝ
  a3 : ℝ

/-- Componentwise addition (`operator+` of the leaf vector library). -/
def Vec3.add (u v : Vec3) : Vec3 := ⟨u.x + v.x, u.y + v.y, u.z + v.z⟩

/-- Componentwise subtraction (`operator-` of the leaf vector library). -/
def Vec3.sub (u v : Vec3) : Vec3 := ⟨u.x - v.x, u.y - v.y, u.z - v.z⟩

/-- Scaling by a scalar (`operator*(float)` of the leaf vector library). -/
def Vec3.smul (u : Vec3) (t : ℝ) : Vec3 := ⟨u.x * t, u.y * t, u.z * t⟩

/-- Negation (`operator-()` of the leaf vector library). -/
def Vec3.neg (u : Vec3) : Vec3 := ⟨-u.x, -u.y, -u.z⟩

/-- Dot product (`operator*(vec,vec)` of the leaf vector library). -/
def Vec3.dot (u v : Vec3) : ℝ := u.x * v.x + u.y * v.y + u.z * v.z

/-- Magnitude: `norm() = sqrt(x*x+y*y+z*z)`. -/
noncomputable def Vec3.norm (u : Vec3) : ℝ := Real.sqrt (Vec3.dot u u)

/-- Normalization: `normalize()` divides the vector by its magnitude. -/
noncomputable def Vec3.normalize (u : Vec3) : Vec3 := u.smul (1 / u.norm)

/-- Material from `src/main.cpp`: refractive index, 4-component albedo,
diffuse color and specular exponent. -/
structure Material where
  refractive_index : ℝ
  albedo : Vec4
  diffuse_color : Vec3
  specular_exponent : ℝ

/-- Default-constructed Material: `refractive_index(1), albedo(1,0,0,0),
diffuse_color(), specular_exponent()` (value-initialized to zeros). -/
def defaultMaterial : Material := ⟨1, ⟨1, 0, 0, 0⟩, ⟨0, 0, 0⟩, 0⟩

/-- Point light from `src/main.cpp`. -/
structure Light where
  position : Vec3
  intensity : ℝ

/-- Sphere from `src/main.cpp`. -/
structure Sphere where
  center : Vec3
  radius : ℝ
  material : Material

/-- Largest finite single-precision float, the initial value
`std::numeric_limits<float>::max()` of the running minima in
`sceneIntersect`. -/
def fltMax : ℝ := 340282346638528859811704183484516925440

/-- Sphere-ray intersection `Sphere::rayIntersect` (src/main.cpp:34-47).
Returns the hit distance when the function returns `true` (the value left in
the out-parameter `t0`), `none` when it returns `false`. -/
noncomputable def Sphere.rayIntersect (s : Sphere) (orig dir : Vec3) : Option ℝ :=
  let oc := s.center.sub orig
  let tca := oc.dot dir
  let d2 := oc.dot oc - tca * tca
  if d2 > s.radius * s.radius then none
  else
    let thc := Real.sqrt (s.radius * s.radius - d2)
    let t0 := tca - thc
    let t1 := tca + thc
    let t0' := if t0 < 0 then t1 else t0
    if 0 ≤ t0' then some t0' else none

/-- C-style cast of a float to `int`: truncation toward zero
(`int(r)` rounds a negative non-integer up, a positive one down). -/
noncomputable def truncToZero (r : ℝ) : ℤ := if r < 0 then ⌈r⌉ else ⌊r⌋

/-- The in-out state of `sceneIntersect`: the `hit`, `N` and `material`
reference parameters. -/
structure HitState where
  hit : Vec3
  N : Vec3
  material : Material

/-- The freshly default-initialized locals `point`, `N`, `material` that
`rayCaster` (and the shadow probe) pass to `sceneIntersect`. -/
def freshState : HitState := ⟨⟨0, 0, 0⟩, ⟨0, 0, 0⟩, defaultMaterial⟩

/-- The sphere loop of `sceneIntersect` (src/main.cpp:67-78): scan every
sphere, keep the smallest hit distance seen so far together with the hit
point, outward normal and material of the current winner.  The accumulator
starts at `(FLT_MAX, incoming state)`. -/
noncomputable def sphereScan (orig dir : Vec3) : List Sphere → ℝ × HitState → ℝ × HitState
  | [], acc => acc
  | s :: rest, acc =>
      let acc' :=
        match s.rayIntersect orig dir with
        | some d =>
            if d < acc.1 then
              let hit := orig.add (dir.smul d)
              (d, ⟨hit, (hit.sub s.center).normalize, s.material⟩)
            else acc
        | none => acc
      sphereScan orig dir rest acc'

/-- The checkerboard-plane test of `sceneIntersect` (src/main.cpp:80-92),
given the best sphere distance and the state after the sphere loop.  Returns
the plane distance (or `FLT_MAX` when the plane does not win) and the
possibly updated state; the plane branch writes only `hit`, `N` and the
`diffuse_color` field of the material. -/
noncomputable def planeHit (orig dir : Vec3) (spheres_dist : ℝ) (st : HitState) :
    ℝ × HitState :=
  if |dir.y| > 1e-3 then
    let distance := -(orig.y + 5) / dir.y
    let pt := orig.add (dir.smul distance)
    if distance > 0 ∧ |pt.x| < 10 ∧ pt.z < -10 ∧ pt.z > -30 ∧ distance < spheres_dist then
      (distance,
        ⟨pt, ⟨0, 1, 0⟩,
          { st.material with
            diffuse_color :=
              if (truncToZero (0.5 * pt.x + 1000) + truncToZero (0.5 * pt.z)) % 2 = 1 then
                ⟨0.3, 0.3, 0.3⟩
              else ⟨0.1, 0.1, 0.1⟩ }⟩)
    else (fltMax, st)
  else (fltMax, st)

/-- Scene-level nearest hit `sceneIntersect` (src/main.cpp:65-94): sphere
scan, then the checkerboard plane, then report a hit iff the winning
distance is below 1000. -/
noncomputable def sceneIntersect (orig dir : Vec3) (spheres : List Sphere)
    (st : HitState) : Bool × HitState :=
  let s := sphereScan orig dir spheres (fltMax, st)
  let p := planeHit orig dir s.1 s.2
  (if min s.1 p.1 < 1000 then true else false, p.2)

/-- Reflection `reflect(I,N) = I - N*2*(I*N)` (src/main.cpp:50-53). -/
def reflect (I N : Vec3) : Vec3 := I.sub (N.smul (2 * I.dot N))

/-- Snell refraction `refract` (src/main.cpp:55-63).  `cosi = -clamp(I*N)`;
when `cosi < 0` the ray comes from inside the object and the function calls
itself once with the normal negated and the two indices swapped.  The guard
inlines the definition of `cosi` so that the branch hypothesis is available
to the termination argument (the flipped call has `cosi >= 0` and recurses no
further). -/
noncomputable def refract (I N : Vec3) (eta_t : ℝ) (eta_i : ℝ) : Vec3 :=
  if h : -(max (-1) (min 1 (I.dot N))) < 0 then refract I N.neg eta_i eta_t
  else
    let cosi := -(max (-1) (min 1 (I.dot N)))
    let eta := eta_i / eta_t
    let k := 1 - eta * eta * (1 - cosi * cosi)
    if k < 0 then ⟨1, 0, 0⟩
    else (I.smul eta).add (N.smul (eta * cosi - Real.sqrt k))
termination_by (if -(max (-1) (min 1 (I.dot N))) < 0 then 1 else 0)
decreasing_by
  have hd : Vec3.dot I N.neg = -(Vec3.dot I N) := by
    simp [Vec3.dot, Vec3.neg]; ring
  have hmm : max (-1:ℝ) (min 1 (-(Vec3.dot I N))) = -(max (-1) (min 1 (Vec3.dot I N))) := by
    simp only [max_def, min_def]
    split_ifs <;> linarith
  simp only [hd, hmm, neg_neg]
  rw [if_pos h, if_neg (by linarith)]
  omega

/-- The fixed background color `BACKGROUNDCOLOR Vec3f(0.3, 0.2, 0.3)`
(src/main.cpp:7). -/
def backgroundColor : Vec3 := ⟨0.3, 0.2, 0.3⟩

/-- One iteration of the light loop of `rayCaster` (src/main.cpp:114-127):
the (diffuse, specular) intensity contributed by a single light at hit point
`point` with normal `N`, for a primary ray of direction `dir`.  An occluded
light (the shadow probe hits geometry strictly closer than the light)
contributes `(0, 0)`; the `continue` in the source skips the two `+=`
statements, which is the same as adding zero to each accumulator. -/
noncomputable def lightContrib (spheres : List Sphere) (dir point N : Vec3)
    (material : Material) (light : Light) : ℝ × ℝ :=
  let light_dir := (light.position.sub point).normalize
  let light_distance := (light.position.sub point).norm
  let shadow_orig :=
    if light_dir.dot N < 0 then point.sub (N.smul 1e-3) else point.add (N.smul 1e-3)
  let sres := sceneIntersect shadow_orig light_dir spheres freshState
  if sres.1 = true ∧ (sres.2.hit.sub shadow_orig).norm < light_distance then (0, 0)
  else
    (light.intensity * max 0 (light_dir.dot N),
      (max 0 (-((reflect light_dir.neg N).dot dir))) ^ material.specular_exponent
        * light.intensity)

/-- The non-recursive tail of `rayCaster` (src/main.cpp:113-128): accumulate
the per-light intensities and combine diffuse, specular, reflected and
refracted contributions with the albedo weights. -/
noncomputable def shadePoint (dir : Vec3) (spheres : List Sphere)
    (lights : List Light) (st : HitState) (reflectColor refractColor : Vec3) : Vec3 :=
  let acc := lights.foldl
    (fun (acc : ℝ × ℝ) light =>
      let c := lightContrib spheres dir st.hit st.N st.material light
      (acc.1 + c.1, acc.2 + c.2)) (0, 0)
  (((st.material.diffuse_color.smul acc.1).smul st.material.albedo.a0).add
      (((⟨1, 1, 1⟩ : Vec3).smul acc.2).smul st.material.albedo.a1)).add
    ((reflectColor.smul st.material.albedo.a2).add
      (refractColor.smul st.material.albedo.a3))

/-- The recursive shader `rayCaster` (src/main.cpp:96-129).  Depth counts up;
at `depth > MAXDEPTH` (10) or on a miss the fixed background color is
returned, otherwise two recursive casts at `depth + 1` (reflection and
refraction) feed `shadePoint`. -/
noncomputable def rayCaster (orig dir : Vec3) (spheres : List Sphere)
    (lights : List Light) (depth : ℕ) : Vec3 :=
  if h : depth > 10 ∨ (sceneIntersect orig dir spheres freshState).1 = false then
    backgroundColor
  else
    let res := sceneIntersect orig dir spheres freshState
    let point := res.2.hit
    let N := res.2.N
    let material := res.2.material
    let reflectDir := (reflect dir N).normalize
    let refractDir := (refract dir N material.refractive_index 1).normalize
    let reflectOrig :=
      if reflectDir.dot N < 0 then point.sub (N.smul 1e-3) else point.add (N.smul 1e-3)
    let refractOrig :=
      if refractDir.dot N < 0 then point.sub (N.smul 1e-3) else point.add (N.smul 1e-3)
    shadePoint dir spheres lights res.2
      (rayCaster reflectOrig reflectDir spheres lights (depth + 1))
      (rayCaster refractOrig refractDir spheres lights (depth + 1))
termination_by 11 - depth
decreasing_by
  all_goals
    simp only [not_or, not_lt] at h
    omega

/-- The tone-mapping step of `render` (src/main.cpp:156-159): when the
largest channel exceeds 1 the pixel is scaled by its reciprocal. -/
noncomputable def toneMap (c : Vec3) : Vec3 :=
  let m := max c.x (max c.y c.z)
  if m > 1 then c.smul (1 / m) else c

/-- The per-channel quantization of `render` (src/main.cpp:162): clamp to
[0,1], scale by 255 and cast to an integer (`(char)` truncates toward
zero). -/
noncomputable def quantizeChannel (v : ℝ) : ℤ :=
  truncToZero (255 * max 0 (min 1 v))

/-- C1: for every scene (any list of spheres and lights), every ray origin
and unit direction, and every depth strictly greater than 10, `rayCaster`
returns exactly the fixed background color (0.3, 0.2, 0.3), independently of
the scene content. -/
theorem castRay_depth_exceeded_background (orig dir : Vec3) (spheres : List Sphere)
    (lights : List Light) (depth : ℕ) (hdir : dir.norm = 1) (hdepth : depth > 10) :
    rayCaster orig dir spheres lights depth = backgroundColor := by
  rw [rayCaster, dif_pos (Or.inl hdepth)]

/-- Witness for C1 at a concrete scene and depth 11. -/
theorem castRay_depth_exceeded_background_witness :
    Vec3.norm ⟨0, 0, -1⟩ = 1 ∧ 11 > 10 ∧
      rayCaster ⟨0, 0, 0⟩ ⟨0, 0, -1⟩ [] [] 11 = backgroundColor := by
  have hdir : Vec3.norm ⟨0, 0, -1⟩ = 1 := by
    simp [Vec3.norm, Vec3.dot]
  exact ⟨hdir, by norm_num,
    castRay_depth_exceeded_background ⟨0, 0, 0⟩ ⟨0, 0, -1⟩ [] [] 11 hdir (by norm_num)⟩

/-- C5: `rayCaster` is a total function (every Lean definition is) and
satisfies its recursion equation: the only state is the depth counter, the
terminal cases are `depth > 10` and a missed intersection (both return the
background color), and every non-terminal step makes exactly the two child
invocations at `depth + 1` that feed `shadePoint` (whose light loop issues
one non-recursive shadow probe per light).  `Sphere.rayIntersect` and
`sceneIntersect` are non-recursive total functions, so a miss is an ordinary
return value, never an error. -/
theorem rayCaster_total_step (orig dir : Vec3) (spheres : List Sphere)
    (lights : List Light) (depth : ℕ) :
    rayCaster orig dir spheres lights depth =
      (let res := sceneIntersect orig dir spheres freshState
       if depth > 10 ∨ res.1 = false then backgroundColor
       else
         let point := res.2.hit
         let N := res.2.N
         let material := res.2.material
         let reflectDir := (reflect dir N).normalize
         let refractDir := (refract dir N material.refractive_index 1).normalize
         let reflectOrig :=
           if reflectDir.dot N < 0 then point.sub (N.smul 1e-3)
           else point.add (N.smul 1e-3)
         let refractOrig :=
           if refractDir.dot N < 0 then point.sub (N.smul 1e-3)
           else point.add (N.smul 1e-3)
         shadePoint dir spheres lights res.2
           (rayCaster reflectOrig reflectDir spheres lights (depth + 1))
           (rayCaster refractOrig refractDir spheres lights (depth + 1))) := by
  rw [rayCaster]
  by_cases h : depth > 10 ∨ (sceneIntersect orig dir spheres freshState).1 = false
  · rw [dif_pos h]
    exact (if_pos h).symm
  · rw [dif_neg h]
    exact (if_neg h).symm

/-- The dot product of a vector with itself is nonnegative. -/
theorem Vec3.dot_self_nonneg (v : Vec3) : 0 ≤ v.dot v := by
  simp only [Vec3.dot]
  nlinarith [sq_nonneg v.x, sq_nonneg v.y, sq_nonneg v.z]

/-- A vector of magnitude 1 has self-dot-product 1. -/
theorem Vec3.dot_self_of_norm_one (v : Vec3) (h : v.norm = 1) : v.dot v = 1 := by
  have h0 := Vec3.dot_self_nonneg v
  have := Real.sq_sqrt h0
  rw [Vec3.norm] at h
  rw [h] at this
  linarith [this]

/-- C2: (a) a sphere whose center lies on the ray's forward axis at distance
`D` from the origin, with radius `0 < R < D` and a unit ray direction, is
reported hit at distance `D - R`; (b) a ray whose origin lies strictly
inside a sphere is reported hit at the exit distance `t1 = tca + thc`. -/
theorem rayIntersect_axial_entry_and_inside_exit :
    (∀ (orig dir : Vec3) (D R : ℝ) (m : Material), Vec3.norm dir = 1 → 0 < R → R < D →
       Sphere.rayIntersect ⟨orig.add (dir.smul D), R, m⟩ orig dir = some (D - R)) ∧
    (∀ (s : Sphere) (orig dir : Vec3), (s.center.sub orig).norm < s.radius →
       Sphere.rayIntersect s orig dir =
         some ((s.center.sub orig).dot dir +
           Real.sqrt (s.radius * s.radius -
             ((s.center.sub orig).dot (s.center.sub orig) -
               (s.center.sub orig).dot dir * ((s.center.sub orig).dot dir))))) := by
  constructor
  · intro orig dir D R m hdir hR hRD
    have hdd : dir.dot dir = 1 := Vec3.dot_self_of_norm_one dir hdir
    have hoc : (Vec3.add orig (dir.smul D)).sub orig = dir.smul D := by
      simp only [Vec3.add, Vec3.sub, Vec3.smul]
      congr 1 <;> ring
    have htca : (dir.smul D).dot dir = D := by
      simp only [Vec3.dot, Vec3.smul] at hdd ⊢
      nlinarith [hdd]
    have hococ : (dir.smul D).dot (dir.smul D) = D * D := by
      simp only [Vec3.dot, Vec3.smul] at hdd ⊢
      nlinarith [hdd]
    simp only [Sphere.rayIntersect, hoc, htca, hococ]
    rw [if_neg (by nlinarith)]
    have hthc : Real.sqrt (R * R - (D * D - D * D)) = R := by
      rw [show D * D - D * D = 0 by ring, sub_zero, Real.sqrt_mul_self hR.le]
    rw [hthc]
    have ha1 : ¬(D - R < 0) := by linarith
    have ha2 : (0:ℝ) ≤ D - R := by linarith
    rw [if_neg ha1, if_pos ha2]
  · intro s orig dir hin
    set oc := s.center.sub orig with hoc
    set tca := oc.dot dir with htca
    have hocn : 0 ≤ oc.dot oc := Vec3.dot_self_nonneg oc
    have hRpos : 0 < s.radius := lt_of_le_of_lt (Real.sqrt_nonneg _) hin
    have hocR : oc.dot oc < s.radius * s.radius := by
      have := (Real.sqrt_lt' hRpos).mp (by rw [Vec3.norm] at hin; exact hin)
      nlinarith [this]
    have hd2 : oc.dot oc - tca * tca ≤ oc.dot oc := by nlinarith [sq_nonneg tca]
    have hkey : tca * tca < s.radius * s.radius - (oc.dot oc - tca * tca) := by
      nlinarith
    have hthc : |tca| < Real.sqrt (s.radius * s.radius - (oc.dot oc - tca * tca)) := by
      have h1 : Real.sqrt (tca * tca) = |tca| := by
        rw [show tca * tca = tca ^ 2 by ring, Real.sqrt_sq_eq_abs]
      calc |tca| = Real.sqrt (tca * tca) := h1.symm
        _ < Real.sqrt (s.radius * s.radius - (oc.dot oc - tca * tca)) :=
            Real.sqrt_lt_sqrt (by nlinarith [sq_nonneg tca]) hkey
    simp only [Sphere.rayIntersect, ← hoc, ← htca]
    rw [if_neg (by push_neg; nlinarith)]
    have hb1 : tca - Real.sqrt (s.radius * s.radius - (oc.dot oc - tca * tca)) < 0 := by
      have := le_abs_self tca
      linarith
    have hb2 : 0 ≤ tca + Real.sqrt (s.radius * s.radius - (oc.dot oc - tca * tca)) := by
      have := neg_abs_le tca
      linarith
    rw [if_pos hb1, if_pos hb2]

/-- Witness for C2: a sphere of radius 2 centered 5 units down the ray axis
is hit at distance 3, and a ray starting at the center of a radius-2 sphere
is hit at the exit distance. -/
theorem rayIntersect_axial_entry_and_inside_exit_witness :
    Vec3.norm ⟨0, 0, -1⟩ = 1 ∧ (0:ℝ) < 2 ∧ (2:ℝ) < 5 ∧
      Sphere.rayIntersect ⟨Vec3.add ⟨0, 0, 0⟩ (Vec3.smul ⟨0, 0, -1⟩ 5), 2, defaultMaterial⟩
        ⟨0, 0, 0⟩ ⟨0, 0, -1⟩ = some (5 - 2) ∧
      (Vec3.sub ⟨0, 0, 0⟩ ⟨0, 0, 0⟩).norm < 2 ∧
      Sphere.rayIntersect ⟨⟨0, 0, 0⟩, 2, defaultMaterial⟩ ⟨0, 0, 0⟩ ⟨0, 0, -1⟩ =
        some ((Vec3.sub ⟨0, 0, 0⟩ ⟨0, 0, 0⟩).dot ⟨0, 0, -1⟩ +
          Real.sqrt (2 * 2 -
            ((Vec3.sub ⟨0, 0, 0⟩ ⟨0, 0, 0⟩).dot (Vec3.sub ⟨0, 0, 0⟩ ⟨0, 0, 0⟩) -
              (Vec3.sub ⟨0, 0, 0⟩ ⟨0, 0, 0⟩).dot ⟨0, 0, -1⟩ *
                ((Vec3.sub ⟨0, 0, 0⟩ ⟨0, 0, 0⟩).dot ⟨0, 0, -1⟩)))) := by
  have hdir : Vec3.norm ⟨0, 0, -1⟩ = 1 := by
    simp [Vec3.norm, Vec3.dot]
  have hin : (Vec3.sub (⟨0, 0, 0⟩ : Vec3) ⟨0, 0, 0⟩).norm < 2 := by
    simp [Vec3.norm, Vec3.dot, Vec3.sub]
  refine ⟨hdir, by norm_num, by norm_num, ?_, hin, ?_⟩
  · exact rayIntersect_axial_entry_and_inside_exit.1 ⟨0, 0, 0⟩ ⟨0, 0, -1⟩ 5 2
      defaultMaterial hdir (by norm_num) (by norm_num)
  · exact rayIntersect_axial_entry_and_inside_exit.2 ⟨⟨0, 0, 0⟩, 2, defaultMaterial⟩
      ⟨0, 0, 0⟩ ⟨0, 0, -1⟩ hin

/-- C4: the checkerboard plane is considered only when `|dir.y| > 1e-3`; a
plane candidate wins only when its hit point satisfies `|x| < 10` and
`-30 < z < -10`, its distance is positive and strictly smaller than the best
sphere distance; and `sceneIntersect` reports a hit iff the winning distance
(sphere or plane) is strictly below 1000. -/
theorem sceneIntersect_plane_policy (orig dir : Vec3) (spheres : List Sphere)
    (st : HitState) (d : ℝ) :
    (|dir.y| ≤ 1e-3 → planeHit orig dir d st = (fltMax, st)) ∧
    ((planeHit orig dir d st).1 ≠ fltMax →
       |dir.y| > 1e-3 ∧
       -(orig.y + 5) / dir.y > 0 ∧
       |(orig.add (dir.smul (-(orig.y + 5) / dir.y))).x| < 10 ∧
       (orig.add (dir.smul (-(orig.y + 5) / dir.y))).z < -10 ∧
       (orig.add (dir.smul (-(orig.y + 5) / dir.y))).z > -30 ∧
       -(orig.y + 5) / dir.y < d ∧
       (planeHit orig dir d st).1 = -(orig.y + 5) / dir.y) ∧
    ((sceneIntersect orig dir spheres st).1 = true ↔
       min (sphereScan orig dir spheres (fltMax, st)).1
         (planeHit orig dir (sphereScan orig dir spheres (fltMax, st)).1
           (sphereScan orig dir spheres (fltMax, st)).2).1 < 1000) := by
  refine ⟨?_, ?_, ?_⟩
  · intro h
    rw [planeHit, if_neg (not_lt.mpr h)]
  · intro h
    rw [planeHit] at h
    by_cases hy : |dir.y| > 1e-3
    · rw [if_pos hy] at h
      by_cases hc : -(orig.y + 5) / dir.y > 0 ∧
          |(orig.add (dir.smul (-(orig.y + 5) / dir.y))).x| < 10 ∧
          (orig.add (dir.smul (-(orig.y + 5) / dir.y))).z < -10 ∧
          (orig.add (dir.smul (-(orig.y + 5) / dir.y))).z > -30 ∧
          -(orig.y + 5) / dir.y < d
      · refine ⟨hy, hc.1, hc.2.1, hc.2.2.1, hc.2.2.2.1, hc.2.2.2.2, ?_⟩
        rw [planeHit, if_pos hy, if_pos hc]
      · rw [if_neg hc] at h
        exact absurd rfl h
    · rw [if_neg hy] at h
      exact absurd rfl h
  · rw [sceneIntersect]
    split
    · next hlt => simp only [true_iff]; exact hlt
    · next hge =>
        constructor
        · intro hfalse
          exact absurd hfalse (by simp)
        · intro hlt
          exact absurd hlt hge

/-- Witness for C4: a ray parallel to the plane never reaches the plane
branch; a ray reaching the tile at (0,-5,-12) makes the plane win at
distance 1 and `sceneIntersect` reports the hit. -/
theorem sceneIntersect_plane_policy_witness :
    (|(Vec3.mk 0 0 (-1)).y| ≤ 1e-3 ∧
      planeHit ⟨0, 0, 0⟩ ⟨0, 0, -1⟩ 5 freshState = (fltMax, freshState)) ∧
    ((planeHit ⟨0, 0, 0⟩ ⟨0, -5, -12⟩ fltMax freshState).1 ≠ fltMax ∧
      |(Vec3.mk 0 (-5) (-12)).y| > 1e-3) ∧
    (sceneIntersect ⟨0, 0, 0⟩ ⟨0, -5, -12⟩ [] freshState).1 = true := by
  have hval : (planeHit ⟨0, 0, 0⟩ ⟨0, -5, -12⟩ fltMax freshState).1 = 1 := by
    rw [planeHit]
    rw [if_pos (by norm_num : |(Vec3.mk 0 (-5) (-12)).y| > 1e-3)]
    norm_num [Vec3.add, Vec3.smul, fltMax]
  refine ⟨⟨by norm_num, ?_⟩, ⟨by rw [hval]; norm_num [fltMax], by norm_num⟩, ?_⟩
  · exact (sceneIntersect_plane_policy ⟨0, 0, 0⟩ ⟨0, 0, -1⟩ [] freshState 5).1
      (by norm_num)
  · refine ((sceneIntersect_plane_policy ⟨0, 0, 0⟩ ⟨0, -5, -12⟩ [] freshState 0).2.2).mpr ?_
    rw [sphereScan]
    have hval2 : (planeHit ⟨0, 0, 0⟩ ⟨0, -5, -12⟩ fltMax freshState).1 = 1 := hval
    rw [show (fltMax, freshState).1 = fltMax from rfl, show (fltMax, freshState).2 = freshState from rfl]
    rw [hval2]
    norm_num [fltMax]

/-- Truncation toward zero of an integer real is that integer: 1000. -/
theorem truncToZero_thousand : truncToZero (1000:ℝ) = 1000 := by
  rw [truncToZero, if_neg (by norm_num)]
  rw [Int.floor_eq_iff]
  norm_num

/-- Truncation toward zero of -6. -/
theorem truncToZero_neg_six : truncToZero ((-6):ℝ) = -6 := by
  rw [truncToZero, if_pos (by norm_num)]
  rw [Int.ceil_eq_iff]
  norm_num

/-- Truncation toward zero of -11/2 rounds up to -5 (where the floor is -6). -/
theorem truncToZero_neg_eleven_half : truncToZero (-(11/2):ℝ) = -5 := by
  rw [truncToZero, if_pos (by norm_num)]
  rw [Int.ceil_eq_iff]
  norm_num

/-- With no spheres, `sceneIntersect` is decided by the plane branch alone. -/
theorem sceneIntersect_nil (orig dir : Vec3) (st : HitState) :
    sceneIntersect orig dir [] st =
      (if min fltMax (planeHit orig dir fltMax st).1 < 1000 then true else false,
        (planeHit orig dir fltMax st).2) := by
  rw [sceneIntersect, sphereScan]

/-- The plane hit through (0,-5,-12) with no spheres: full evaluation. -/
theorem planeHit_z12_eval :
    (planeHit ⟨0, 0, 0⟩ ⟨0, -5, -12⟩ fltMax freshState).1 = 1 ∧
    (planeHit ⟨0, 0, 0⟩ ⟨0, -5, -12⟩ fltMax freshState).2.hit = ⟨0, -5, -12⟩ ∧
    (planeHit ⟨0, 0, 0⟩ ⟨0, -5, -12⟩ fltMax freshState).2.material.diffuse_color =
      ⟨0.1, 0.1, 0.1⟩ := by
  rw [planeHit]
  rw [if_pos (by norm_num : |(Vec3.mk 0 (-5) (-12)).y| > 1e-3)]
  norm_num [Vec3.add, Vec3.smul, fltMax, truncToZero_thousand, truncToZero_neg_six]

/-- The plane hit through (0,-5,-11) with no spheres: full evaluation. -/
theorem planeHit_z11_eval :
    (planeHit ⟨0, 0, 0⟩ ⟨0, -5, -11⟩ fltMax freshState).1 = 1 ∧
    (planeHit ⟨0, 0, 0⟩ ⟨0, -5, -11⟩ fltMax freshState).2.hit = ⟨0, -5, -11⟩ ∧
    (planeHit ⟨0, 0, 0⟩ ⟨0, -5, -11⟩ fltMax freshState).2.material.diffuse_color =
      ⟨0.3, 0.3, 0.3⟩ := by
  rw [planeHit]
  rw [if_pos (by norm_num : |(Vec3.mk 0 (-5) (-11)).y| > 1e-3)]
  norm_num [Vec3.add, Vec3.smul, fltMax, truncToZero_thousand, truncToZero_neg_eleven_half]

/-- C3 is false as stated: the two checkerboard-plane hit points (0,-5,-12)
and (0,-5,-11), both accepted by `sceneIntersect` and both inside the stated
region, have the same parity of `floor(0.5x+1000) + floor(0.5z)` (both
even), yet are assigned the two different diffuse shades — because the code
truncates `0.5z` toward zero rather than flooring it.  Moreover the spec's
literal pair x=0,z=0 versus x=1,z=0 gives the same floor parity, so it
cannot distinguish the two shades either. -/
theorem planeColor_floor_parity_counterexample :
    (sceneIntersect ⟨0, 0, 0⟩ ⟨0, -5, -12⟩ [] freshState).1 = true ∧
    (sceneIntersect ⟨0, 0, 0⟩ ⟨0, -5, -11⟩ [] freshState).1 = true ∧
    (sceneIntersect ⟨0, 0, 0⟩ ⟨0, -5, -12⟩ [] freshState).2.hit = ⟨0, -5, -12⟩ ∧
    (sceneIntersect ⟨0, 0, 0⟩ ⟨0, -5, -11⟩ [] freshState).2.hit = ⟨0, -5, -11⟩ ∧
    (⌊0.5 * (0:ℝ) + 1000⌋ + ⌊0.5 * (-12:ℝ)⌋) % 2 =
      (⌊0.5 * (0:ℝ) + 1000⌋ + ⌊0.5 * (-11:ℝ)⌋) % 2 ∧
    (sceneIntersect ⟨0, 0, 0⟩ ⟨0, -5, -12⟩ [] freshState).2.material.diffuse_color =
      ⟨0.1, 0.1, 0.1⟩ ∧
    (sceneIntersect ⟨0, 0, 0⟩ ⟨0, -5, -11⟩ [] freshState).2.material.diffuse_color =
      ⟨0.3, 0.3, 0.3⟩ ∧
    (⟨0.1, 0.1, 0.1⟩ : Vec3) ≠ ⟨0.3, 0.3, 0.3⟩ ∧
    (⌊0.5 * (0:ℝ) + 1000⌋ + ⌊0.5 * (0:ℝ)⌋) % 2 =
      (⌊0.5 * (1:ℝ) + 1000⌋ + ⌊0.5 * (0:ℝ)⌋) % 2 := by
  have hf12 : (⌊0.5 * (-12:ℝ)⌋ : ℤ) = -6 := by
    rw [Int.floor_eq_iff]
    norm_num
  have hf11 : (⌊0.5 * (-11:ℝ)⌋ : ℤ) = -6 := by
    rw [Int.floor_eq_iff]
    norm_num
  have hf0 : (⌊0.5 * (0:ℝ) + 1000⌋ : ℤ) = 1000 := by
    rw [Int.floor_eq_iff]
    norm_num
  have hfz : (⌊0.5 * (0:ℝ)⌋ : ℤ) = 0 := by
    rw [Int.floor_eq_iff]
    norm_num
  have hf1 : (⌊0.5 * (1:ℝ) + 1000⌋ : ℤ) = 1000 := by
    rw [Int.floor_eq_iff]
    norm_num
  refine ⟨?_, ?_, ?_, ?_, by rw [hf12, hf11], ?_, ?_, ?_, by rw [hf0, hf1, hfz]⟩
  · rw [sceneIntersect_nil, planeHit_z12_eval.1]
    norm_num [fltMax]
  · rw [sceneIntersect_nil, planeHit_z11_eval.1]
    norm_num [fltMax]
  · rw [sceneIntersect_nil]
    exact planeHit_z12_eval.2.1
  · rw [sceneIntersect_nil]
    exact planeHit_z11_eval.2.1
  · rw [sceneIntersect_nil]
    exact planeHit_z12_eval.2.2
  · rw [sceneIntersect_nil]
    exact planeHit_z11_eval.2.2
  · intro h
    have := congrArg Vec3.x h
    norm_num at this

/-- C3 (amended): for every checkerboard-plane hit accepted by
`sceneIntersect`, the diffuse color is determined by the parity of
`int(0.5 x + 1000) + int(0.5 z)` where `int` is C truncation toward zero
(not the floor): the shade is (0.3,0.3,0.3) when that sum is odd and
(0.1,0.1,0.1) when it is even. -/
theorem planeColor_trunc_parity (orig dir : Vec3) (d : ℝ) (st : HitState)
    (hy : |dir.y| > 1e-3)
    (hc : -(orig.y + 5) / dir.y > 0 ∧
      |(orig.add (dir.smul (-(orig.y + 5) / dir.y))).x| < 10 ∧
      (orig.add (dir.smul (-(orig.y + 5) / dir.y))).z < -10 ∧
      (orig.add (dir.smul (-(orig.y + 5) / dir.y))).z > -30 ∧
      -(orig.y + 5) / dir.y < d) :
    (planeHit orig dir d st).2.material.diffuse_color =
      (if (truncToZero (0.5 * (orig.add (dir.smul (-(orig.y + 5) / dir.y))).x + 1000) +
            truncToZero (0.5 * (orig.add (dir.smul (-(orig.y + 5) / dir.y))).z)) % 2 = 1
       then (⟨0.3, 0.3, 0.3⟩ : Vec3) else ⟨0.1, 0.1, 0.1⟩) := by
  rw [planeHit, if_pos hy, if_pos hc]

/-- Witness for the amended C3 at the plane hit (0,-5,-12). -/
theorem planeColor_trunc_parity_witness :
    |(Vec3.mk 0 (-5) (-12)).y| > 1e-3 ∧
    (planeHit ⟨0, 0, 0⟩ ⟨0, -5, -12⟩ fltMax freshState).2.material.diffuse_color =
      (if (truncToZero (0.5 * (Vec3.add ⟨0, 0, 0⟩
              (Vec3.smul ⟨0, -5, -12⟩ (-((0:ℝ) + 5) / (-5)))).x + 1000) +
            truncToZero (0.5 * (Vec3.add ⟨0, 0, 0⟩
              (Vec3.smul ⟨0, -5, -12⟩ (-((0:ℝ) + 5) / (-5)))).z)) % 2 = 1
       then (⟨0.3, 0.3, 0.3⟩ : Vec3) else ⟨0.1, 0.1, 0.1⟩) := by
  refine ⟨by norm_num, ?_⟩
  exact planeColor_trunc_parity ⟨0, 0, 0⟩ ⟨0, -5, -12⟩ fltMax freshState
    (by norm_num) (by norm_num [Vec3.add, Vec3.smul, fltMax])

/-- Dot product is odd in its second argument. -/
theorem Vec3.dot_neg_right (I N : Vec3) : I.dot N.neg = -(I.dot N) := by
  simp only [Vec3.dot, Vec3.neg]
  ring

/-- The clamp to [-1,1] used by `refract` is an odd function. -/
theorem clamp_neg (d : ℝ) : max (-1:ℝ) (min 1 (-d)) = -(max (-1) (min 1 d)) := by
  simp only [max_def, min_def]
  split_ifs <;> linarith

/-- In the branch of `refract` where `cosi` is nonnegative and the indices
are equal and nonzero, the incident direction is returned unchanged. -/
theorem refract_core_equal (I M : Vec3) (eta : ℝ) (h : eta ≠ 0)
    (hge : ¬(-(max (-1) (min 1 (I.dot M))) < 0)) :
    refract I M eta eta = I := by
  rw [refract, dif_neg hge]
  dsimp only
  have hc0 : 0 ≤ -(max (-1) (min 1 (I.dot M))) := not_lt.mp hge
  rw [div_self h]
  have hk : ∀ c : ℝ, 1 - 1 * 1 * (1 - c * c) = c * c := fun c => by ring
  rw [hk]
  rw [if_neg (not_lt.mpr (mul_self_nonneg _))]
  rw [show ∀ c : ℝ, c * c = c ^ 2 from fun c => by ring, Real.sqrt_sq hc0]
  simp [Vec3.smul, Vec3.add]

/-- C7 is false as stated: with both refractive indices equal to 0 the
division `eta_i/eta_t` is degenerate and `refract` bends the ray from
(0,0,-1) to (0,-1,0) instead of returning it unchanged. -/
theorem refract_equal_indices_counterexample :
    refract ⟨0, 0, -1⟩ ⟨0, 1, 0⟩ 0 0 = ⟨0, -1, 0⟩ ∧
    (⟨0, -1, 0⟩ : Vec3) ≠ ⟨0, 0, -1⟩ := by
  constructor
  · rw [refract, dif_neg (by norm_num [Vec3.dot])]
    norm_num [Vec3.dot, Vec3.smul, Vec3.add]
  · intro h
    have := congrArg Vec3.y h
    norm_num at this

/-- C7 (amended): for every incident direction `I`, every normal `N` and
every nonzero index `eta`, `refract I N eta eta = I` — no bending at equal
indices; the restriction `eta ≠ 0` excludes only the degenerate
division-by-zero input exhibited in the counterexample. -/
theorem refract_equal_indices (I N : Vec3) (eta : ℝ) (h : eta ≠ 0) :
    refract I N eta eta = I := by
  by_cases hA : -(max (-1) (min 1 (I.dot N))) < 0
  · rw [refract, dif_pos hA]
    apply refract_core_equal I N.neg eta h
    rw [Vec3.dot_neg_right, clamp_neg, neg_neg]
    linarith
  · exact refract_core_equal I N eta h hA

/-- Witness for the amended C7 at a concrete direction, normal and index. -/
theorem refract_equal_indices_witness :
    (1:ℝ) ≠ 0 ∧ refract ⟨0, 0, -1⟩ ⟨0, 1, 0⟩ 1 1 = ⟨0, 0, -1⟩ :=
  ⟨by norm_num, refract_equal_indices ⟨0, 0, -1⟩ ⟨0, 1, 0⟩ 1 (by norm_num)⟩

/-- C8: when the computed discriminant `k` is negative (total internal
reflection) `refract` returns the synthetic direction (1,0,0) — a defined
value, not an error; and the inside-the-medium case (`cosi < 0`) performs
exactly one self-call with the normal negated and the indices swapped, whose
own `cosi` is nonnegative, so `refract` never loops (it is a total
function). -/
theorem refract_tir_and_single_flip (I N : Vec3) (eta_t eta_i : ℝ) :
    (¬(-(max (-1) (min 1 (I.dot N))) < 0) →
      1 - eta_i / eta_t * (eta_i / eta_t) *
          (1 - -(max (-1) (min 1 (I.dot N))) * -(max (-1) (min 1 (I.dot N)))) < 0 →
      refract I N eta_t eta_i = ⟨1, 0, 0⟩) ∧
    (-(max (-1) (min 1 (I.dot N))) < 0 →
      refract I N eta_t eta_i = refract I N.neg eta_i eta_t ∧
      ¬(-(max (-1) (min 1 (I.dot N.neg))) < 0)) := by
  constructor
  · intro h1 h2
    rw [refract, dif_neg h1]
    dsimp only
    rw [if_pos h2]
  · intro h
    refine ⟨by rw [refract, dif_pos h], ?_⟩
    rw [Vec3.dot_neg_right, clamp_neg, neg_neg]
    linarith

/-- Witness for C8: total internal reflection at a concrete input (dense
medium, grazing ray) returns (1,0,0), and a concrete inside-the-object ray
triggers exactly one flip. -/
theorem refract_tir_and_single_flip_witness :
    (¬(-(max (-1) (min 1 (Vec3.dot ⟨0, 0, -1⟩ ⟨0, 1, 0⟩))) < 0) ∧
      1 - 2 / 1 * (2 / 1) *
          (1 - -(max (-1) (min 1 (Vec3.dot ⟨0, 0, -1⟩ ⟨0, 1, 0⟩))) *
            -(max (-1) (min 1 (Vec3.dot ⟨0, 0, -1⟩ ⟨0, 1, 0⟩)))) < 0 ∧
      refract ⟨0, 0, -1⟩ ⟨0, 1, 0⟩ 1 2 = ⟨1, 0, 0⟩) ∧
    (-(max (-1) (min 1 (Vec3.dot ⟨0, 0, -1⟩ ⟨0, 0, -1⟩))) < 0 ∧
      refract ⟨0, 0, -1⟩ ⟨0, 0, -1⟩ (3/2) 1 =
        refract ⟨0, 0, -1⟩ (Vec3.neg ⟨0, 0, -1⟩) 1 (3/2)) := by
  have hd1 : Vec3.dot ⟨0, 0, -1⟩ ⟨0, 1, 0⟩ = 0 := by norm_num [Vec3.dot]
  have hd2 : Vec3.dot ⟨0, 0, -1⟩ ⟨0, 0, -1⟩ = 1 := by norm_num [Vec3.dot]
  refine ⟨⟨by rw [hd1]; norm_num, by rw [hd1]; norm_num, ?_⟩, ⟨by rw [hd2]; norm_num, ?_⟩⟩
  · exact (refract_tir_and_single_flip ⟨0, 0, -1⟩ ⟨0, 1, 0⟩ 1 2).1
      (by rw [hd1]; norm_num) (by rw [hd1]; norm_num)
  · exact ((refract_tir_and_single_flip ⟨0, 0, -1⟩ ⟨0, 0, -1⟩ (3/2) 1).2
      (by rw [hd2]; norm_num)).1

/-- C6: for every hit point and light, with `L` the unit direction toward
the light and `so` the epsilon-offset shadow origin: if the shadow probe
hits scene geometry strictly closer than the light, the light contributes
exactly (0,0) to the (diffuse, specular) accumulators; otherwise it
contributes `intensity * max 0 (L·N)` to diffuse and
`intensity * max 0 (-reflect(-L,N)·dir) ^ specular_exponent` to specular. -/
theorem lightContrib_shadow_rule (spheres : List Sphere) (dir point N : Vec3)
    (material : Material) (light : Light) (L so : Vec3)
    (hL : L = (light.position.sub point).normalize)
    (hso : so = if L.dot N < 0 then point.sub (N.smul 1e-3)
                else point.add (N.smul 1e-3)) :
    ((sceneIntersect so L spheres freshState).1 = true ∧
        ((sceneIntersect so L spheres freshState).2.hit.sub so).norm <
          (light.position.sub point).norm →
        lightContrib spheres dir point N material light = (0, 0)) ∧
    (¬((sceneIntersect so L spheres freshState).1 = true ∧
        ((sceneIntersect so L spheres freshState).2.hit.sub so).norm <
          (light.position.sub point).norm) →
        lightContrib spheres dir point N material light =
          (light.intensity * max 0 (L.dot N),
            max 0 (-((reflect L.neg N).dot dir)) ^ material.specular_exponent *
              light.intensity)) := by
  subst hL
  subst hso
  constructor
  · intro h
    rw [lightContrib, if_pos h]
  · intro h
    rw [lightContrib, if_neg h]

/-- Witness for C6: a light one unit above a hit point with no occluders
contributes the full Phong terms. -/
theorem lightContrib_shadow_rule_witness :
    (⟨0, 0, 1⟩ : Vec3) = (Vec3.sub ⟨0, 0, 1⟩ ⟨0, 0, 0⟩).normalize ∧
    (⟨0, 0, 1e-3⟩ : Vec3) =
      (if (⟨0, 0, 1⟩ : Vec3).dot ⟨0, 0, 1⟩ < 0 then
        Vec3.sub ⟨0, 0, 0⟩ (Vec3.smul ⟨0, 0, 1⟩ 1e-3)
      else Vec3.add ⟨0, 0, 0⟩ (Vec3.smul ⟨0, 0, 1⟩ 1e-3)) ∧
    ¬((sceneIntersect ⟨0, 0, 1e-3⟩ ⟨0, 0, 1⟩ [] freshState).1 = true ∧
        ((sceneIntersect ⟨0, 0, 1e-3⟩ ⟨0, 0, 1⟩ [] freshState).2.hit.sub
          ⟨0, 0, 1e-3⟩).norm < (Vec3.sub ⟨0, 0, 1⟩ ⟨0, 0, 0⟩).norm) ∧
    lightContrib [] ⟨0, 0, -1⟩ ⟨0, 0, 0⟩ ⟨0, 0, 1⟩ defaultMaterial ⟨⟨0, 0, 1⟩, 14/10⟩ =
      (14/10 * max 0 ((⟨0, 0, 1⟩ : Vec3).dot ⟨0, 0, 1⟩),
        max 0 (-((reflect (Vec3.neg ⟨0, 0, 1⟩) ⟨0, 0, 1⟩).dot ⟨0, 0, -1⟩)) ^
          defaultMaterial.specular_exponent * (14/10)) := by
  have hL : (⟨0, 0, 1⟩ : Vec3) = (Vec3.sub ⟨0, 0, 1⟩ ⟨0, 0, 0⟩).normalize := by
    norm_num [Vec3.normalize, Vec3.norm, Vec3.dot, Vec3.sub, Vec3.smul, Real.sqrt_one]
  have hso : (⟨0, 0, 1e-3⟩ : Vec3) =
      (if (⟨0, 0, 1⟩ : Vec3).dot ⟨0, 0, 1⟩ < 0 then
        Vec3.sub ⟨0, 0, 0⟩ (Vec3.smul ⟨0, 0, 1⟩ 1e-3)
      else Vec3.add ⟨0, 0, 0⟩ (Vec3.smul ⟨0, 0, 1⟩ 1e-3)) := by
    rw [if_neg (by norm_num [Vec3.dot])]
    norm_num [Vec3.add, Vec3.smul]
  have hmiss : (sceneIntersect ⟨0, 0, 1e-3⟩ ⟨0, 0, 1⟩ [] freshState).1 = false := by
    rw [sceneIntersect_nil, planeHit]
    rw [if_neg (by norm_num : ¬(|(Vec3.mk 0 0 1).y| > 1e-3))]
    norm_num [fltMax]
  have hnotocc : ¬((sceneIntersect ⟨0, 0, 1e-3⟩ ⟨0, 0, 1⟩ [] freshState).1 = true ∧
      ((sceneIntersect ⟨0, 0, 1e-3⟩ ⟨0, 0, 1⟩ [] freshState).2.hit.sub
        ⟨0, 0, 1e-3⟩).norm < (Vec3.sub ⟨0, 0, 1⟩ ⟨0, 0, 0⟩).norm) := by
    rw [hmiss]
    simp
  exact ⟨hL, hso, hnotocc,
    (lightContrib_shadow_rule [] ⟨0, 0, -1⟩ ⟨0, 0, 0⟩ ⟨0, 0, 1⟩ defaultMaterial
      ⟨⟨0, 0, 1⟩, 14/10⟩ ⟨0, 0, 1⟩ ⟨0, 0, 1e-3⟩ hL hso).2 hnotocc⟩

/-- C9: tone mapping scales a pixel down by its maximum channel exactly when
that maximum exceeds 1, leaves any pixel with all channels at most 1
unchanged (in particular (2,1,0.5) maps to (1,0.5,0.25)), and the
subsequent clamp-and-quantize step always produces an 8-bit integer in
[0, 255]. -/
theorem toneMap_quantize_spec :
    (∀ c : Vec3, max c.x (max c.y c.z) > 1 →
       toneMap c = c.smul (1 / max c.x (max c.y c.z))) ∧
    (∀ c : Vec3, c.x ≤ 1 → c.y ≤ 1 → c.z ≤ 1 → toneMap c = c) ∧
    toneMap ⟨2, 1, 0.5⟩ = ⟨1, 0.5, 0.25⟩ ∧
    (∀ v : ℝ, 0 ≤ quantizeChannel v ∧ quantizeChannel v ≤ 255) := by
  refine ⟨?_, ?_, ?_, ?_⟩
  · intro c h
    rw [toneMap]
    exact if_pos h
  · intro c hx hy hz
    rw [toneMap]
    exact if_neg (not_lt.mpr (max_le hx (max_le hy hz)))
  · rw [toneMap]
    rw [show max (Vec3.mk 2 1 0.5).x (max (Vec3.mk 2 1 0.5).y (Vec3.mk 2 1 0.5).z) = 2 by
      norm_num]
    rw [if_pos (by norm_num)]
    norm_num [Vec3.smul]
  · intro v
    have hub : max 0 (min 1 v) ≤ 1 := max_le (by norm_num) (min_le_left _ _)
    have hlb : (0:ℝ) ≤ max 0 (min 1 v) := le_max_left _ _
    have hw : (0:ℝ) ≤ 255 * max 0 (min 1 v) := by positivity
    have hw2 : 255 * max 0 (min 1 v) ≤ 255 := by nlinarith
    rw [quantizeChannel, truncToZero, if_neg (not_lt.mpr hw)]
    constructor
    · exact Int.le_floor.mpr (by exact_mod_cast hw)
    · calc ⌊255 * max 0 (min 1 v)⌋ ≤ ⌊(255:ℝ)⌋ := Int.floor_le_floor hw2
        _ = 255 := by rw [Int.floor_eq_iff]; norm_num

/-- Witness for C9: (0.5,0.5,0.5) is left unchanged, (2,1,0.5) is scaled by
1/2, and quantizing 0.7 lands in [0,255]. -/
theorem toneMap_quantize_spec_witness :
    ((0.5:ℝ) ≤ 1 ∧ toneMap ⟨0.5, 0.5, 0.5⟩ = ⟨0.5, 0.5, 0.5⟩) ∧
    (max (Vec3.mk 2 1 0.5).x (max (Vec3.mk 2 1 0.5).y (Vec3.mk 2 1 0.5).z) > 1 ∧
      toneMap ⟨2, 1, 0.5⟩ =
        Vec3.smul ⟨2, 1, 0.5⟩
          (1 / max (Vec3.mk 2 1 0.5).x (max (Vec3.mk 2 1 0.5).y (Vec3.mk 2 1 0.5).z))) ∧
    (0 ≤ quantizeChannel 0.7 ∧ quantizeChannel 0.7 ≤ 255) := by
  refine ⟨⟨by norm_num, ?_⟩, ⟨by norm_num, ?_⟩, ?_⟩
  · exact toneMap_quantize_spec.2.1 ⟨0.5, 0.5, 0.5⟩ (by norm_num) (by norm_num) (by norm_num)
  · exact toneMap_quantize_spec.1 ⟨2, 1, 0.5⟩ (by norm_num)
  · exact toneMap_quantize_spec.2.2.2 0.7

/-- The plane branch never touches `refractive_index`, `albedo` or
`specular_exponent`: they pass through from the incoming state. -/
theorem planeHit_material_fields (orig dir : Vec3) (d : ℝ) (st : HitState) :
    (planeHit orig dir d st).2.material.refractive_index =
      st.material.refractive_index ∧
    (planeHit orig dir d st).2.material.albedo = st.material.albedo ∧
    (planeHit orig dir d st).2.material.specular_exponent =
      st.material.specular_exponent := by
  rw [planeHit]
  dsimp only
  split_ifs <;> exact ⟨rfl, rfl, rfl⟩

/-- A scan over spheres that all miss leaves the accumulator unchanged. -/
theorem sphereScan_all_miss (orig dir : Vec3) (spheres : List Sphere)
    (acc : ℝ × HitState) (h : ∀ s ∈ spheres, s.rayIntersect orig dir = none) :
    sphereScan orig dir spheres acc = acc := by
  induction spheres with
  | nil => rfl
  | cons s rest ih =>
      rw [sphereScan, h s (List.mem_cons_self s rest)]
      exact ih fun t ht => h t (List.mem_cons_of_mem s ht)

/-- A scan over a single sphere that hits below `FLT_MAX` records its
distance, hit point, outward normal and material. -/
theorem sphereScan_single_hit (orig dir : Vec3) (s : Sphere) (ds : ℝ)
    (st : HitState) (h : s.rayIntersect orig dir = some ds) (hlt : ds < fltMax) :
    sphereScan orig dir [s] (fltMax, st) =
      (ds, ⟨orig.add (dir.smul ds),
        ((orig.add (dir.smul ds)).sub s.center).normalize, s.material⟩) := by
  rw [sphereScan, h]
  dsimp only
  rw [if_pos hlt]
  rw [sphereScan]

/-- C10: the plane branch of `sceneIntersect` writes only the
`diffuse_color` of the output material; hence when no sphere intersects the
ray a winning plane hit is shaded with the default material's fields
(refractive index 1, albedo (1,0,0,0), specular exponent 0), while when a
single sphere intersects the ray farther away than the plane, the plane hit
inherits that sphere's refractive index, albedo and specular exponent. -/
theorem sceneIntersect_material_inheritance :
    (∀ (orig dir : Vec3) (d : ℝ) (st : HitState),
       (planeHit orig dir d st).2.material.refractive_index =
         st.material.refractive_index ∧
       (planeHit orig dir d st).2.material.albedo = st.material.albedo ∧
       (planeHit orig dir d st).2.material.specular_exponent =
         st.material.specular_exponent) ∧
    (∀ (orig dir : Vec3) (spheres : List Sphere),
       (∀ s ∈ spheres, s.rayIntersect orig dir = none) →
       (sceneIntersect orig dir spheres freshState).2.material.refractive_index = 1 ∧
       (sceneIntersect orig dir spheres freshState).2.material.albedo =
         ⟨1, 0, 0, 0⟩ ∧
       (sceneIntersect orig dir spheres freshState).2.material.specular_exponent = 0) ∧
    (∀ (orig dir : Vec3) (s : Sphere) (ds : ℝ),
       s.rayIntersect orig dir = some ds → ds < fltMax → |dir.y| > 1e-3 →
       (-(orig.y + 5) / dir.y > 0 ∧
         |(orig.add (dir.smul (-(orig.y + 5) / dir.y))).x| < 10 ∧
         (orig.add (dir.smul (-(orig.y + 5) / dir.y))).z < -10 ∧
         (orig.add (dir.smul (-(orig.y + 5) / dir.y))).z > -30 ∧
         -(orig.y + 5) / dir.y < ds) →
       (sceneIntersect orig dir [s] freshState).2.N = ⟨0, 1, 0⟩ ∧
       (sceneIntersect orig dir [s] freshState).2.material.refractive_index =
         s.material.refractive_index ∧
       (sceneIntersect orig dir [s] freshState).2.material.albedo =
         s.material.albedo ∧
       (sceneIntersect orig dir [s] freshState).2.material.specular_exponent =
         s.material.specular_exponent) := by
  refine ⟨fun orig dir d st => planeHit_material_fields orig dir d st, ?_, ?_⟩
  · intro orig dir spheres h
    have hs2 : (sceneIntersect orig dir spheres freshState).2 =
        (planeHit orig dir fltMax freshState).2 := by
      rw [sceneIntersect, sphereScan_all_miss orig dir spheres (fltMax, freshState) h]
    rw [hs2]
    exact planeHit_material_fields orig dir fltMax freshState
  · intro orig dir s ds hray hlt hy hc
    have hs2 : (sceneIntersect orig dir [s] freshState).2 =
        (planeHit orig dir ds
          ⟨orig.add (dir.smul ds),
            ((orig.add (dir.smul ds)).sub s.center).normalize, s.material⟩).2 := by
      rw [sceneIntersect, sphereScan_single_hit orig dir s ds freshState hray hlt]
    rw [hs2, planeHit, if_pos hy, if_pos hc]
    exact ⟨rfl, rfl, rfl, rfl⟩

/-- Witness for C10: with no spheres a plane hit keeps the default material
fields; with one sphere 25 units down the ray (plane at 13), the plane hit
inherits the sphere's refractive index 3/2, albedo (0.1,0.2,0.3,0.4) and
specular exponent 125. -/
theorem sceneIntersect_material_inheritance_witness :
    ((sceneIntersect ⟨0, 0, 0⟩ ⟨0, -5, -12⟩ [] freshState).2.material.refractive_index
        = 1 ∧
      (sceneIntersect ⟨0, 0, 0⟩ ⟨0, -5, -12⟩ [] freshState).2.material.albedo =
        ⟨1, 0, 0, 0⟩ ∧
      (sceneIntersect ⟨0, 0, 0⟩ ⟨0, -5, -12⟩ [] freshState).2.material.specular_exponent
        = 0) ∧
    (Sphere.rayIntersect
        ⟨⟨0, -10, -24⟩, 1, ⟨3/2, ⟨1/10, 2/10, 3/10, 4/10⟩, ⟨6/10, 8/10, 7/10⟩, 125⟩⟩
        ⟨0, 0, 0⟩ ⟨0, -5/13, -12/13⟩ = some 25 ∧
      (25:ℝ) < fltMax ∧
      (sceneIntersect ⟨0, 0, 0⟩ ⟨0, -5/13, -12/13⟩
          [⟨⟨0, -10, -24⟩, 1, ⟨3/2, ⟨1/10, 2/10, 3/10, 4/10⟩, ⟨6/10, 8/10, 7/10⟩, 125⟩⟩]
          freshState).2.N = ⟨0, 1, 0⟩ ∧
      (sceneIntersect ⟨0, 0, 0⟩ ⟨0, -5/13, -12/13⟩
          [⟨⟨0, -10, -24⟩, 1, ⟨3/2, ⟨1/10, 2/10, 3/10, 4/10⟩, ⟨6/10, 8/10, 7/10⟩, 125⟩⟩]
          freshState).2.material.refractive_index = 3/2 ∧
      (sceneIntersect ⟨0, 0, 0⟩ ⟨0, -5/13, -12/13⟩
          [⟨⟨0, -10, -24⟩, 1, ⟨3/2, ⟨1/10, 2/10, 3/10, 4/10⟩, ⟨6/10, 8/10, 7/10⟩, 125⟩⟩]
          freshState).2.material.albedo = ⟨1/10, 2/10, 3/10, 4/10⟩ ∧
      (sceneIntersect ⟨0, 0, 0⟩ ⟨0, -5/13, -12/13⟩
          [⟨⟨0, -10, -24⟩, 1, ⟨3/2, ⟨1/10, 2/10, 3/10, 4/10⟩, ⟨6/10, 8/10, 7/10⟩, 125⟩⟩]
          freshState).2.material.specular_exponent = 125) := by
  have hray : Sphere.rayIntersect
      ⟨⟨0, -10, -24⟩, 1, ⟨3/2, ⟨1/10, 2/10, 3/10, 4/10⟩, ⟨6/10, 8/10, 7/10⟩, 125⟩⟩
      ⟨0, 0, 0⟩ ⟨0, -5/13, -12/13⟩ = some 25 := by
    rw [Sphere.rayIntersect]
    norm_num [Vec3.sub, Vec3.dot, Real.sqrt_one]
  have hlt : (25:ℝ) < fltMax := by norm_num [fltMax]
  refine ⟨?_, hray, hlt, ?_⟩
  · exact sceneIntersect_material_inheritance.2.1 ⟨0, 0, 0⟩ ⟨0, -5, -12⟩ []
      (by intro s hs; exact absurd hs (List.not_mem_nil s))
  · exact sceneIntersect_material_inheritance.2.2 ⟨0, 0, 0⟩ ⟨0, -5/13, -12/13⟩
      ⟨⟨0, -10, -24⟩, 1, ⟨3/2, ⟨1/10, 2/10, 3/10, 4/10⟩, ⟨6/10, 8/10, 7/10⟩, 125⟩⟩ 25
      hray hlt (by norm_num [abs_of_nonneg]) (by norm_num [Vec3.add, Vec3.smul])
